import Mathlib

/-!
Verification of the secure-channel broker and signing orchestration protocol
of the web-eid browser extension.

The development shallowly embeds the TypeScript sources:

* coerceOrigin               (src/shared/utils/coerceOrigin.ts)
* WebServerService           (src/background/services/WebServerService.ts)
* sign                       (src/background/actions/sign.ts)

Browser platform facilities (the WHATWG URL parser, the webRequest API, the
message relay used to perform the actual network fetch) and the native
application channel are external collaborators; they are modelled as explicit
environment records supplying the outcome of each external interaction.

The WHATWG URL parser is modelled by a simplified parser that covers the parts
exercised by the code under verification: absolute URLs of the form
scheme://host/path (lowercase scheme, host read up to the first slash, default
path "/"), protocol-relative, path-absolute and path-relative references
resolved against a base, origin extraction and href serialisation.  Query and
fragment handling, percent-encoding, dot-segment removal and host or port
normalisation are outside the model.
-/

deriving instance DecidableEq for Except

namespace WebEid

/-! ## URL model -/

/-- Scheme characters accepted by the model parser: lowercase ASCII letters.
The WHATWG parser lowercases schemes; the model restricts itself to URLs whose
scheme is already lowercase. -/
def isSchemeChar (c : Char) : Bool := c.isLower

/-- Parsed URL record: scheme, host (including any port) and path. -/
structure URLRec where
  scheme : List Char
  host : List Char
  path : List Char
deriving DecidableEq, Repr

/-- Serialisation of a parsed URL (the href property). -/
def hrefChars (u : URLRec) : List Char :=
  u.scheme ++ ':' :: '/' :: '/' :: (u.host ++ u.path)

/-- Origin of a parsed URL: scheme plus host, path discarded. -/
def originChars (u : URLRec) : List Char :=
  u.scheme ++ ':' :: '/' :: '/' :: u.host

/-- Parser for absolute URLs of the form scheme://host/path. -/
def parseAbsoluteChars (cs : List Char) : Option URLRec :=
  match cs.drop (cs.takeWhile isSchemeChar).length with
  | ':' :: '/' :: '/' :: rest =>
    if (cs.takeWhile isSchemeChar).isEmpty
        || (rest.takeWhile (fun c => !(c == '/'))).isEmpty then
      none
    else
      some ⟨cs.takeWhile isSchemeChar,
            rest.takeWhile (fun c => !(c == '/')),
            if (rest.drop (rest.takeWhile (fun c => !(c == '/'))).length).isEmpty
            then ['/']
            else rest.drop (rest.takeWhile (fun c => !(c == '/'))).length⟩
  | _ => none

/-- Directory part of a path: everything up to and including the last slash. -/
def dirOf : List Char → List Char
  | [] => []
  | c :: rest =>
    if '/' ∈ rest then c :: dirOf rest
    else if c == '/' then ['/'] else []

/-- Resolution of a URL reference against a base, following the branches of the
WHATWG basic URL parser that the verified code exercises: absolute references,
the empty reference, protocol-relative, path-absolute and path-relative
references. -/
def resolveChars (b : URLRec) (url : List Char) : Option URLRec :=
  match parseAbsoluteChars url with
  | some u => some u
  | none =>
    match url with
    | [] => some b
    | '/' :: '/' :: rest =>
      if (rest.takeWhile (fun c => !(c == '/'))).isEmpty then none
      else
        some ⟨b.scheme,
              rest.takeWhile (fun c => !(c == '/')),
              if (rest.drop (rest.takeWhile (fun c => !(c == '/'))).length).isEmpty
              then ['/']
              else rest.drop (rest.takeWhile (fun c => !(c == '/'))).length⟩
    | '/' :: rest => some ⟨b.scheme, b.host, '/' :: rest⟩
    | other => some ⟨b.scheme, b.host, dirOf b.path ++ other⟩

/-- Model of the URL constructor new URL(url, base): the base string is parsed
as an absolute URL and the reference is resolved against it. -/
def resolveURL (base url : String) : Option URLRec :=
  match parseAbsoluteChars base.data with
  | none => none
  | some b => resolveChars b url.data

/-- Origin of a parsed URL as a string. -/
def originStr (u : URLRec) : String := String.mk (originChars u)

/-- Serialised form of a parsed URL as a string. -/
def hrefStr (u : URLRec) : String := String.mk (hrefChars u)

/-- Lowercasing of a string, character by character (toLocaleLowerCase). -/
def lowerStr (s : String) : String := String.mk (s.data.map Char.toLower)

/-! ## Error model -/

/-- Error kinds of the layered error taxonomy thrown by the broker, the
orchestrator and their collaborators. -/
inductive ErrKind where
  | originMismatch
  | protocolInsecure
  | certificateChanged
  | serverRejected
  | tlsConnectionBroken
  | tlsConnectionInsecure
  | tlsConnectionWeak
  | missingParameter
  | userTimeout
  | serverTimeout
  | typeError
  | generic
deriving DecidableEq, Repr

/-- Certificate fingerprint observed on a completed TLS handshake. -/
structure Fingerprint where
  sha256 : String
deriving DecidableEq, Repr

/-- Certificate metadata exposed by the TLS inspection capability. -/
structure CertificateInfo where
  fingerprint : Fingerprint
deriving DecidableEq, Repr

/-- HTTP response header. -/
structure HttpHeader where
  name : String
  value : String
deriving DecidableEq, Repr

/-- Body of the prepare-signing response: document hash and hash algorithm. -/
structure PrepBody where
  hash : String
  algorithm : String
deriving DecidableEq, Repr

/-- Response body values: an absent body, a plain string, a JSON object of
string values (the CORS configuration document), or the prepare response. -/
inductive BodyVal where
  | undef
  | str (s : String)
  | record (kv : List (String × String))
  | prep (b : PrepBody)
deriving DecidableEq, Repr

/-- Shape of a relayed network response as delivered by the page relay. -/
structure HttpResponse where
  ok : Bool
  redirected : Bool
  status : Nat
  statusText : String
  type : String
  url : String
  body : BodyVal
  headers : List HttpHeader
deriving DecidableEq, Repr

/-- A thrown error: a kind, a message and the optional response snapshot that
the broker attaches to the error when the HTTP outcome is not a success. -/
structure JsError where
  kind : ErrKind
  message : String
  response : Option HttpResponse := none
deriving DecidableEq, Repr

/-- Attachment of a response snapshot onto an error (Object.assign in fetch). -/
def attachResponse (e : JsError) (r : HttpResponse) : JsError :=
  { e with response := some r }

/-! ## OriginCoercion (coerceOrigin.ts) -/

/-- Applies the trusted origin to a relative URL: resolves url against
trustedOrigin as a base; when the origin of the resolved URL differs from the
trusted origin, fails with OriginMismatch; when the URL cannot be resolved at
all, fails with the TypeError that the URL constructor throws. -/
def coerceOrigin (trustedOrigin url : String) : Except JsError String :=
  match resolveURL trustedOrigin url with
  | none => .error ⟨.typeError, "Invalid URL", none⟩
  | some u =>
    if trustedOrigin ≠ originStr u then
      .error ⟨.originMismatch,
        "expected origin " ++ trustedOrigin ++ " for URL " ++ hrefStr u, none⟩
    else
      .ok (hrefStr u)

/-! ## SecureFetchBroker (WebServerService.ts) -/

/-- Security information that the webRequest TLS inspection capability would
deliver for an in-flight call (browser.webRequest.getSecurityInfo). -/
structure SecurityInfo where
  state : String
  fingerprint : Fingerprint
deriving DecidableEq, Repr

/-- Environment of one broker fetch call: the permission query outcome, the
response headers visible to the onHeadersReceived listener, the security
information the TLS inspection would deliver, and the outcome of the relayed
network transfer (browser.tabs.sendMessage). -/
structure FetchEnv where
  permissionResult : Except String Bool
  responseHeaders : Option (List HttpHeader)
  securityInfo : SecurityInfo
  relay : Except JsError HttpResponse
deriving DecidableEq

/-- Session state of the broker: fingerprint sequence, sender tab, sender
origin and the optional CORS-negotiated origin. -/
structure WebServerService where
  fingerprints : List Fingerprint
  senderTabId : Nat
  senderOrigin : String
  corsOrigin : Option String
deriving DecidableEq, Repr

/-- Fingerprint pairwise-equality check: true when some recorded fingerprint
differs from the first one. -/
def WebServerService.hasCertificateChanged (s : WebServerService) : Bool :=
  !(s.fingerprints.all (fun fp =>
      match s.fingerprints.head? with
      | some first => first.sha256 == fp.sha256
      | none => true))

/-- Access-Control-Allow-Origin header value extracted by the listener from the
response headers, matched on the lowercased header name. -/
def acaoOf (responseHeaders : Option (List HttpHeader)) : Option String :=
  match responseHeaders with
  | none => none
  | some hs =>
    match hs.find? (fun h => lowerStr h.name == "access-control-allow-origin") with
    | none => none
    | some h => some h.value

/-- The live body of the onHeadersReceived listener.  When a CORS origin is
set and the response Access-Control-Allow-Origin header differs from the
sender origin, it records an OriginMismatch error (and cancels the transfer).
The TLS security-state classification and fingerprint recording that follow in
the source are commented out there and therefore absent from the model. -/
def onHeadersReceivedListener (s : WebServerService)
    (responseHeaders : Option (List HttpHeader)) : Option JsError :=
  if s.corsOrigin.isSome && !(some s.senderOrigin == acaoOf responseHeaders) then
    some ⟨.originMismatch,
      "website origin " ++ s.senderOrigin
        ++ " does not match Access-Control-Allow-Origin", none⟩
  else none

/-- Permission flag: result of browser.permissions.contains; a rejection of the
permission query is caught and leaves the flag false. -/
def hasPermission (env : FetchEnv) : Bool :=
  match env.permissionResult with
  | .ok b => b
  | .error _ => false

/-- Error recorded by the response-inspection hook for the call: the listener
runs only when the webRequest permission is available. -/
def hookError (s : WebServerService) (env : FetchEnv) : Option JsError :=
  if hasPermission env then onHeadersReceivedListener s env.responseHeaders
  else none

/-- Successful result of a broker fetch: the relayed response fields together
with the certificate metadata collected for the call.  The live code never
assigns the certificate metadata (the assignment sits in the commented-out
region of the listener), so the field stays none on every path. -/
structure FetchOk where
  certificateInfo : Option CertificateInfo
  ok : Bool
  redirected : Bool
  status : Nat
  statusText : String
  type : String
  url : String
  body : BodyVal
  headers : List HttpHeader
deriving DecidableEq, Repr

/-- Outcome of one broker fetch call: the returned value or thrown error, the
broker state after the call, and whether the relayed network transfer was
issued. -/
structure FetchOutcome where
  result : Except JsError FetchOk
  state : WebServerService
  networkAttempted : Bool
deriving DecidableEq

/-- Default ServerRejected error synthesised when the response is not ok and
the hook recorded nothing more specific. -/
def serverRejectedErr : JsError := ⟨.serverRejected, "server rejected the request", none⟩

/-- The broker fetch operation (WebServerService.fetch).  Coerces the URL
against the CORS origin when set, else the sender origin; rejects non-HTTPS
URLs before any network attempt; runs the response-inspection hook when the
webRequest permission is available; relays the network transfer through the
page; on a response that is not ok, attaches a response snapshot to the hook
error or to a synthesised ServerRejected error; throws the recorded error if
any, else returns the response fields with the collected certificate
metadata. -/
def WebServerService.fetch (s : WebServerService) (fetchUrl : String)
    (env : FetchEnv) : FetchOutcome :=
  match coerceOrigin (s.corsOrigin.getD s.senderOrigin) fetchUrl with
  | .error e => ⟨.error e, s, false⟩
  | .ok fetchUrl2 =>
    if !(("https://".data).isPrefixOf ((lowerStr fetchUrl2).data)) then
      ⟨.error ⟨.protocolInsecure, "HTTPS required for " ++ fetchUrl2, none⟩, s, false⟩
    else
      match env.relay with
      | .error e => ⟨.error e, s, true⟩
      | .ok response =>
        match (if !response.ok then
                 some (attachResponse ((hookError s env).getD serverRejectedErr) response)
               else hookError s env) with
        | some e => ⟨.error e, s, true⟩
        | none =>
          ⟨.ok ⟨none, response.ok, response.redirected, response.status,
                response.statusText, response.type, response.url,
                response.body, response.headers⟩, s, true⟩

/-! ## CORS negotiation (WebServerService.enableCors) -/

/-- Action kinds relevant to CORS negotiation. -/
inductive Action where
  | authenticate
  | sign
  | other
deriving DecidableEq, Repr

/-- CORS configuration property keyed by the action. -/
def originProp : Action → Option String
  | .authenticate => some "authUrlOrigin"
  | .sign => some "signUrlOrigin"
  | .other => none

/-- Lookup of a string property on a response body value; only a JSON object
body yields values. -/
def bodyProp (b : BodyVal) (k : String) : Option String :=
  match b with
  | .record kv =>
    match kv.find? (fun p => p.1 == k) with
    | none => none
    | some p => some p.2
  | _ => none

/-- The CORS negotiation operation (WebServerService.enableCors): coerces the
configuration URL against the sender origin, performs a trust-checked fetch of
the configuration document, selects the origin property keyed by the action
(MissingParameter when absent or empty, a generic error when not a well-formed
URL), and stores the origin component of that value as the session CORS
origin. -/
def WebServerService.enableCors (s : WebServerService) (action : Action)
    (corsConfigUrl : String) (env : FetchEnv) :
    Except JsError Unit × WebServerService :=
  match originProp action with
  | none => (.error ⟨.generic, "invalid action", none⟩, s)
  | some prop =>
    match coerceOrigin s.senderOrigin corsConfigUrl with
    | .error e => (.error e, s)
    | .ok url =>
      match (WebServerService.fetch s url env).result with
      | .error e => (.error e, s)
      | .ok resp =>
        match bodyProp resp.body prop with
        | none =>
          (.error ⟨.missingParameter, prop ++ " required in CORS configuration", none⟩, s)
        | some corsOrigin =>
          if corsOrigin == "" then
            (.error ⟨.missingParameter, prop ++ " required in CORS configuration", none⟩, s)
          else
            match parseAbsoluteChars corsOrigin.data with
            | none => (.error ⟨.generic, "invalid origin in CORS configuration", none⟩, s)
            | some u => (.ok (), { s with corsOrigin := some (originStr u) })

/-! ## SigningOrchestrator (sign.ts) -/

/-- Message sender identity.  Modelled from the spec: getSenderUrl and
getSenderTabId (src/shared/utils/sender.ts, not included in the source files)
extract the requesting page URL and its tab identifier from the sender. -/
structure Sender where
  url : String
  tabId : Nat
deriving DecidableEq, Repr

/-- Construction of the broker bound to the sender page: the sender origin is
the origin of the sender URL; the fingerprint sequence starts empty and no
CORS origin is set.  An unparseable sender URL makes the URL constructor
throw. -/
def mkWebServerService (sender : Sender) : Except JsError WebServerService :=
  match parseAbsoluteChars sender.url.data with
  | none => .error ⟨.typeError, "Invalid URL", none⟩
  | some u => .ok ⟨[], sender.tabId, originStr u, none⟩

/-- A supported signature algorithm set reported by the native application. -/
structure AlgoSet where
  cryptoAlgo : String
  hashAlgo : String
  paddingAlgo : String
deriving DecidableEq, Repr

/-- Native response to the get-signing-certificate command. -/
structure CertResponse where
  certificate : Option String
  error : Option String
  supportedSignatureAlgos : Option (List AlgoSet)
deriving DecidableEq, Repr

/-- Native response to the sign command. -/
structure SignResponse where
  signature : Option String
  error : Option String
deriving DecidableEq, Repr

/-- Outcome of racing an operation against a timeout: either the timeout fires
first, or the operation settles with a value or a thrown error. -/
inductive Raced (α : Type) where
  | timedOut
  | settled (r : Except JsError α)
deriving DecidableEq

/-- Truthiness of an optional string (absent and empty strings are falsy). -/
def isTruthy (o : Option String) : Bool :=
  match o with
  | none => false
  | some s => !(s == "")

/-- Environment of one sign-flow invocation: outcomes of every external
interaction, in flow order. -/
structure SignEnv where
  corsFetchEnv : FetchEnv
  connect1 : Except JsError String
  certExchange : Raced CertResponse
  prepareTimedOut : Bool
  prepareFetchEnv : FetchEnv
  connect2 : Except JsError String
  signExchange : Raced SignResponse
  finalizeTimedOut : Bool
  finalizeFetchEnv : FetchEnv
deriving DecidableEq

/-- Parameters of the sign entry point. -/
structure SignParams where
  postPrepareSigningUrl : String
  postFinalizeSigningUrl : String
  getCorsConfigUrl : Option String
  headers : List (String × String)
  userInteractionTimeout : Nat
  serverRequestTimeout : Nat
  lang : Option String
deriving DecidableEq, Repr

/-- Native application channel lifecycle events: a channel object is opened at
each construction site and closed by a close call. -/
inductive ChanEvent where
  | opened (id : Nat)
  | closed (id : Nat)
deriving DecidableEq, Repr

/-- Channel bookkeeping of the orchestrator: the lifecycle event trace and the
identifier of the channel currently held by the nativeAppService variable. -/
structure OrchSt where
  trace : List ChanEvent
  current : Option Nat
deriving DecidableEq, Repr

/-- Success payload projected from the finalize response (the pick call). -/
structure PickedResponse where
  body : BodyVal
  headers : List HttpHeader
  ok : Bool
  redirected : Bool
  status : Nat
  statusText : String
  type : String
  url : String
deriving DecidableEq, Repr

/-- Projection of the finalize fetch result onto the picked success fields. -/
def pickResponse (f : FetchOk) : PickedResponse :=
  ⟨f.body, f.headers, f.ok, f.redirected, f.status, f.statusText, f.type, f.url⟩

/-- Stable serialised error shape.  Modelled from the spec: serializeError of
the web-eid library (an external dependency) serialises an error into a stable
structured shape of kind, message and attached properties such as the optional
server response snapshot; the errors thrown by the code under verification
carry no nested cause, so the cause chain is empty and omitted. -/
structure SerializedError where
  code : ErrKind
  message : String
  response : Option HttpResponse
deriving DecidableEq, Repr

/-- Serialisation of a thrown error into the stable result shape. -/
def serializeError (e : JsError) : SerializedError := ⟨e.kind, e.message, e.response⟩

/-- Tagged result of the sign flow: SIGN_SUCCESS with the projected finalize
response, or SIGN_FAILURE with the serialised error. -/
inductive SignResult where
  | success (response : PickedResponse)
  | failure (error : SerializedError)
deriving DecidableEq, Repr

/-- The try block of the sign orchestrator, following sign.ts line by line:
broker construction, native channel construction (channel 1), optional CORS
negotiation, native connect, certificate retrieval raced against the
user-interaction timeout, certificate validation, the prepare fetch raced
against the server-request timeout, replacement of the native channel
(channel 2, the first channel is replaced without a close), reconnect, the
signature exchange raced against the user-interaction timeout, signature
validation, and the finalize fetch raced against the server-request timeout.
The result pairs the returned payload or thrown error with the channel
bookkeeping. -/
def signTry (p : SignParams) (sender : Sender) (env : SignEnv) :
    Except JsError PickedResponse × OrchSt :=
  match mkWebServerService sender with
  | .error e => (.error e, ⟨[], none⟩)
  | .ok ws0 =>
    match (match p.getCorsConfigUrl with
           | none => Except.ok ws0
           | some ccu =>
             match WebServerService.enableCors ws0 Action.sign ccu env.corsFetchEnv with
             | (.error e, _) => Except.error e
             | (.ok _, ws1) => Except.ok ws1) with
    | .error e => (.error e, ⟨[ChanEvent.opened 1], some 1⟩)
    | .ok ws =>
      match env.connect1 with
      | .error e => (.error e, ⟨[ChanEvent.opened 1], some 1⟩)
      | .ok _ =>
        match parseAbsoluteChars p.postPrepareSigningUrl.data with
        | none => (.error ⟨.typeError, "Invalid URL", none⟩, ⟨[ChanEvent.opened 1], some 1⟩)
        | some _ =>
          match env.certExchange with
          | .timedOut =>
            (.error ⟨.userTimeout, "user failed to respond in time", none⟩,
             ⟨[ChanEvent.opened 1], some 1⟩)
          | .settled (.error e) => (.error e, ⟨[ChanEvent.opened 1], some 1⟩)
          | .settled (.ok certResp) =>
            if isTruthy certResp.error then
              (.error ⟨.generic, certResp.error.getD "", none⟩,
               ⟨[ChanEvent.opened 1], some 1⟩)
            else if !(isTruthy certResp.certificate) then
              (.error ⟨.generic, "Missing signing certificate", none⟩,
               ⟨[ChanEvent.opened 1], some 1⟩)
            else
              match certResp.supportedSignatureAlgos with
              | none =>
                (.error ⟨.typeError, "supported-signature-algos is not an array", none⟩,
                 ⟨[ChanEvent.opened 1], some 1⟩)
              | some _ =>
                if env.prepareTimedOut then
                  (.error ⟨.serverTimeout,
                    "server failed to respond in time - POST " ++ p.postPrepareSigningUrl,
                    none⟩,
                   ⟨[ChanEvent.opened 1], some 1⟩)
                else
                  match (WebServerService.fetch ws p.postPrepareSigningUrl
                          env.prepareFetchEnv).result with
                  | .error e => (.error e, ⟨[ChanEvent.opened 1], some 1⟩)
                  | .ok prepareResult =>
                    match env.connect2 with
                    | .error e =>
                      (.error e,
                       ⟨[ChanEvent.opened 1, ChanEvent.opened 2], some 2⟩)
                    | .ok _ =>
                      match prepareResult.body with
                      | BodyVal.undef =>
                        (.error ⟨.typeError, "prepare response body is not an object", none⟩,
                         ⟨[ChanEvent.opened 1, ChanEvent.opened 2], some 2⟩)
                      | _ =>
                        match parseAbsoluteChars sender.url.data with
                        | none =>
                          (.error ⟨.typeError, "Invalid URL", none⟩,
                           ⟨[ChanEvent.opened 1, ChanEvent.opened 2], some 2⟩)
                        | some _ =>
                          match env.signExchange with
                          | .timedOut =>
                            (.error ⟨.userTimeout, "user failed to respond in time", none⟩,
                             ⟨[ChanEvent.opened 1, ChanEvent.opened 2], some 2⟩)
                          | .settled (.error e) =>
                            (.error e,
                             ⟨[ChanEvent.opened 1, ChanEvent.opened 2], some 2⟩)
                          | .settled (.ok sigResp) =>
                            if isTruthy sigResp.error then
                              (.error ⟨.generic, sigResp.error.getD "", none⟩,
                               ⟨[ChanEvent.opened 1, ChanEvent.opened 2], some 2⟩)
                            else if !(isTruthy sigResp.signature) then
                              (.error ⟨.generic, "Missing sign signature", none⟩,
                               ⟨[ChanEvent.opened 1, ChanEvent.opened 2], some 2⟩)
                            else if env.finalizeTimedOut then
                              (.error ⟨.serverTimeout,
                                "server failed to respond in time - POST "
                                  ++ p.postFinalizeSigningUrl, none⟩,
                               ⟨[ChanEvent.opened 1, ChanEvent.opened 2], some 2⟩)
                            else
                              match (WebServerService.fetch ws p.postFinalizeSigningUrl
                                      env.finalizeFetchEnv).result with
                              | .error e =>
                                (.error e,
                                 ⟨[ChanEvent.opened 1, ChanEvent.opened 2], some 2⟩)
                              | .ok fin =>
                                (.ok (pickResponse fin),
                                 ⟨[ChanEvent.opened 1, ChanEvent.opened 2], some 2⟩)

/-- The sign entry point: the try block wrapped with the catch clause that
converts any thrown error into a tagged failure carrying the serialised error,
and the finally clause that closes the currently held native channel.  The
value is the flow result together with the channel lifecycle trace. -/
def sign (p : SignParams) (sender : Sender) (env : SignEnv) :
    SignResult × List ChanEvent :=
  ((match (signTry p sender env).1 with
    | .ok payload => SignResult.success payload
    | .error e => SignResult.failure (serializeError e)),
   (match (signTry p sender env).2.current with
    | some i => (signTry p sender env).2.trace ++ [ChanEvent.closed i]
    | none => (signTry p sender env).2.trace))

/-- Identifiers of the channels opened during a flow, in order. -/
def openedIds (tr : List ChanEvent) : List Nat :=
  tr.filterMap (fun e =>
    match e with
    | ChanEvent.opened i => some i
    | ChanEvent.closed _ => none)

/-! ## Concrete sessions and environments used as test inputs -/

/-- A fresh broker session for the page https://page.example. -/
def wsSession : WebServerService := ⟨[], 7, "https://page.example", none⟩

/-- A successful relayed response carrying a first payload. -/
def respPayload1 : HttpResponse :=
  ⟨true, false, 200, "OK", "basic", "https://page.example/api", BodyVal.str "payload-1", []⟩

/-- A successful relayed response carrying a second payload. -/
def respPayload2 : HttpResponse :=
  ⟨true, false, 200, "OK", "basic", "https://page.example/api", BodyVal.str "payload-2", []⟩

/-- Fetch environment: webRequest permission granted, TLS secure with leaf
fingerprint fp-AA. -/
def envFpAA : FetchEnv :=
  ⟨.ok true, some [], ⟨"secure", ⟨"fp-AA"⟩⟩, .ok respPayload1⟩

/-- Fetch environment: webRequest permission granted, TLS secure with the
divergent leaf fingerprint fp-BB. -/
def envFpBB : FetchEnv :=
  ⟨.ok true, some [], ⟨"secure", ⟨"fp-BB"⟩⟩, .ok respPayload2⟩

/-- Fetch environment delivering the CORS configuration document that names
https://cors.example as the signing origin. -/
def envCorsCfg : FetchEnv :=
  ⟨.ok false, none, ⟨"secure", ⟨"fp-AA"⟩⟩,
   .ok ⟨true, false, 200, "OK", "basic", "https://page.example/cfg",
        BodyVal.record [("signUrlOrigin", "https://cors.example")], []⟩⟩

/-- The session after a successful CORS negotiation for signing. -/
def wsCors : WebServerService :=
  (WebServerService.enableCors wsSession Action.sign "/cfg" envCorsCfg).2

/-- A successful cross-origin response that lacks the
Access-Control-Allow-Origin header. -/
def respNoAcao : HttpResponse :=
  ⟨true, false, 200, "OK", "cors", "https://cors.example/x", BodyVal.str "secret", []⟩

/-- Fetch environment with the webRequest permission unavailable and a
response that lacks the Access-Control-Allow-Origin header. -/
def envNoAcaoNoPerm : FetchEnv :=
  ⟨.ok false, some [], ⟨"secure", ⟨"fp-AA"⟩⟩, .ok respNoAcao⟩

/-- Fetch environment with the webRequest permission granted and a response
that lacks the Access-Control-Allow-Origin header. -/
def envNoAcaoPerm : FetchEnv :=
  ⟨.ok true, some [], ⟨"secure", ⟨"fp-AA"⟩⟩, .ok respNoAcao⟩

/-- A broker session anchored to a plain HTTP page origin. -/
def wsHttpPage : WebServerService := ⟨[], 3, "http://a.example", none⟩

/-- Parameters of a concrete sign flow without CORS negotiation. -/
def sgParams : SignParams :=
  ⟨"https://page.example/prepare", "https://page.example/finalize", none, [], 120, 20, none⟩

/-- Sender page of the concrete sign flow. -/
def sgSender : Sender := ⟨"https://page.example/start", 7⟩

/-- Successful prepare response. -/
def respPrep : HttpResponse :=
  ⟨true, false, 200, "OK", "basic", "https://page.example/prepare",
   BodyVal.prep ⟨"d0c-hash", "SHA-256"⟩, []⟩

/-- Successful finalize response. -/
def respFin : HttpResponse :=
  ⟨true, false, 200, "OK", "basic", "https://page.example/finalize",
   BodyVal.str "done", [⟨"content-type", "application/json"⟩]⟩

/-- Finalize response rejected by the server with HTTP 400. -/
def respFin400 : HttpResponse :=
  ⟨false, false, 400, "Bad Request", "basic", "https://page.example/finalize",
   BodyVal.str "bad", []⟩

/-- Environment of a fully successful sign flow. -/
def sgEnvOk : SignEnv :=
  ⟨envCorsCfg, .ok "connected",
   .settled (.ok ⟨some "CERT", none, some [⟨"rsa", "sha256", "pkcs"⟩]⟩),
   false, ⟨.ok false, none, ⟨"secure", ⟨"fp-AA"⟩⟩, .ok respPrep⟩,
   .ok "connected", .settled (.ok ⟨some "SIG", none⟩),
   false, ⟨.ok false, none, ⟨"secure", ⟨"fp-AA"⟩⟩, .ok respFin⟩⟩

/-- Environment in which the native application is unavailable. -/
def connFailErr : JsError := ⟨.generic, "native application not found", none⟩

/-- Sign environment whose first native connect fails. -/
def sgEnvConnFail : SignEnv := { sgEnvOk with connect1 := .error connFailErr }

/-- Sign environment whose finalize call is rejected with HTTP 400. -/
def sgEnv400 : SignEnv :=
  { sgEnvOk with finalizeFetchEnv := ⟨.ok false, none, ⟨"secure", ⟨"fp-AA"⟩⟩, .ok respFin400⟩ }

/-- Well-formedness of a parsed URL record: nonempty lowercase scheme, a
nonempty host free of slashes, and a path beginning with a slash.  Every URL
produced by the model parser and resolver is well formed, and serialising a
well-formed record and reparsing it restores the record. -/
def WFURL (u : URLRec) : Prop :=
  u.scheme ≠ [] ∧ (∀ c ∈ u.scheme, isSchemeChar c = true) ∧
    u.host ≠ [] ∧ (∀ c ∈ u.host, (c == '/') = false) ∧ ∃ t, u.path = '/' :: t

/-! ## URL model lemmas -/

theorem takeWhile_append_all (p : Char → Bool) :
    ∀ (xs ys : List Char), (∀ x ∈ xs, p x = true) →
      (∀ a, ys.head? = some a → p a = false) →
      (xs ++ ys).takeWhile p = xs := by
  intro xs
  induction xs with
  | nil =>
    intro ys _ hy
    cases ys with
    | nil => rfl
    | cons a t => simp [List.takeWhile_cons, hy a rfl]
  | cons x xs ih =>
    intro ys hx hy
    have hpx : p x = true := hx x (List.mem_cons_self x xs)
    simp [List.takeWhile_cons, hpx, ih ys (fun a ha => hx a (List.mem_cons_of_mem x ha)) hy]

theorem drop_takeWhile_length (p : Char → Bool) (l : List Char) :
    l.drop (l.takeWhile p).length = l.dropWhile p := by
  nth_rewrite 2 [← List.takeWhile_append_dropWhile p l]
  exact List.drop_left _ _

theorem dropWhile_head_false (p : Char → Bool) :
    ∀ (l : List Char) (a : Char) (t : List Char), l.dropWhile p = a :: t → p a = false := by
  intro l
  induction l with
  | nil => intro a t h; exact absurd h (by simp)
  | cons b l ih =>
    intro a t h
    by_cases hb : p b = true
    · rw [List.dropWhile_cons, if_pos hb] at h
      exact ih a t h
    · rw [List.dropWhile_cons, if_neg hb] at h
      cases h
      exact Bool.eq_false_iff.mpr hb

theorem isEmpty_false_of_ne_nil {l : List Char} (h : l ≠ []) : l.isEmpty = false := by
  cases l with
  | nil => exact absurd rfl h
  | cons a t => rfl

theorem ne_nil_of_isEmpty_false {l : List Char} (h : l.isEmpty = false) : l ≠ [] := by
  cases l with
  | nil => simp [List.isEmpty] at h
  | cons a t => simp

theorem parseAbsoluteChars_WF {cs : List Char} {u : URLRec}
    (h : parseAbsoluteChars cs = some u) : WFURL u := by
  unfold parseAbsoluteChars at h
  split at h
  case h_2 => exact absurd h (by simp)
  case h_1 rest heq =>
    split at h
    case isTrue => exact absurd h (by simp)
    case isFalse hne =>
      have hne1 : (cs.takeWhile isSchemeChar).isEmpty = false := by
        cases h1 : (cs.takeWhile isSchemeChar).isEmpty <;> simp [h1] at hne ⊢
      have hne2 : (rest.takeWhile (fun c => !(c == '/'))).isEmpty = false := by
        cases h2 : (rest.takeWhile (fun c => !(c == '/'))).isEmpty <;>
          simp [h2] at hne ⊢
      cases h
      refine ⟨ne_nil_of_isEmpty_false hne1, ?_, ne_nil_of_isEmpty_false hne2, ?_, ?_⟩
      · intro c hc
        exact List.mem_takeWhile_imp hc
      · intro c hc
        have := List.mem_takeWhile_imp hc
        simpa using this
      · split
        · exact ⟨[], rfl⟩
        · case isFalse hpe =>
          rw [drop_takeWhile_length] at hpe ⊢
          cases hd : rest.dropWhile (fun c => !(c == '/')) with
          | nil => rw [hd] at hpe; exact absurd rfl hpe
          | cons a t =>
            have ha := dropWhile_head_false _ _ _ _ hd
            have ha2 : (a == '/') = true := by
              cases h3 : a == '/' <;> simp [h3] at ha ⊢
            have ha3 : a = '/' := eq_of_beq ha2
            exact ⟨t, by rw [ha3]⟩

theorem parse_hrefChars {u : URLRec} (h : WFURL u) :
    parseAbsoluteChars (hrefChars u) = some u := by
  obtain ⟨h1, h2, h3, h4, t, h5⟩ := h
  have hTake : (hrefChars u).takeWhile isSchemeChar = u.scheme := by
    unfold hrefChars
    exact takeWhile_append_all _ _ _ h2 (by intro a ha; cases ha; decide)
  have hDrop : (hrefChars u).drop u.scheme.length =
      ':' :: '/' :: '/' :: (u.host ++ u.path) := by
    unfold hrefChars
    exact List.drop_left _ _
  have hTake2 : (u.host ++ u.path).takeWhile (fun c => !(c == '/')) = u.host := by
    refine takeWhile_append_all _ _ _ ?_ ?_
    · intro x hx; simp [h4 x hx]
    · intro a ha
      rw [h5] at ha
      cases ha
      decide
  have hDrop2 : (u.host ++ u.path).drop u.host.length = u.path := List.drop_left _ _
  unfold parseAbsoluteChars
  rw [hTake, hDrop]
  show (if u.scheme.isEmpty
          || ((u.host ++ u.path).takeWhile (fun c => !(c == '/'))).isEmpty then none
        else some ⟨u.scheme, (u.host ++ u.path).takeWhile (fun c => !(c == '/')),
          if ((u.host ++ u.path).drop
                ((u.host ++ u.path).takeWhile (fun c => !(c == '/'))).length).isEmpty
          then ['/']
          else (u.host ++ u.path).drop
            ((u.host ++ u.path).takeWhile (fun c => !(c == '/'))).length⟩) = some u
  rw [hTake2, hDrop2]
  rw [isEmpty_false_of_ne_nil h1, isEmpty_false_of_ne_nil h3]
  have hpne : u.path.isEmpty = false := by rw [h5]; rfl
  rw [hpne]
  rfl

theorem dirOf_slash (t : List Char) : ∃ t2, dirOf ('/' :: t) = '/' :: t2 := by
  by_cases h : '/' ∈ t
  · exact ⟨dirOf t, by simp only [dirOf]; rw [if_pos h]⟩
  · refine ⟨[], ?_⟩
    simp only [dirOf]
    rw [if_neg h]
    simp

theorem resolveChars_WF {b : URLRec} {url : List Char} {u : URLRec}
    (hb : WFURL b) (h : resolveChars b url = some u) : WFURL u := by
  unfold resolveChars at h
  split at h
  case h_1 v heq =>
    cases h
    exact parseAbsoluteChars_WF heq
  case h_2 hpe =>
    obtain ⟨hb1, hb2, hb3, hb4, bt, hb5⟩ := hb
    split at h
    · cases h; exact ⟨hb1, hb2, hb3, hb4, bt, hb5⟩
    · case h_2 rest =>
      split at h
      case isTrue => exact absurd h (by simp)
      case isFalse hne =>
        cases h
        refine ⟨hb1, hb2, ?_, ?_, ?_⟩
        · have : (rest.takeWhile (fun c => !(c == '/'))).isEmpty = false := by
            cases h2 : (rest.takeWhile (fun c => !(c == '/'))).isEmpty <;>
              simp [h2] at hne ⊢
          exact ne_nil_of_isEmpty_false this
        · intro c hc
          have := List.mem_takeWhile_imp hc
          simpa using this
        · split
          · exact ⟨[], rfl⟩
          · case isFalse hpe2 =>
            rw [drop_takeWhile_length] at hpe2 ⊢
            cases hd : rest.dropWhile (fun c => !(c == '/')) with
            | nil => rw [hd] at hpe2; exact absurd rfl hpe2
            | cons a t2 =>
              have ha := dropWhile_head_false _ _ _ _ hd
              have ha2 : a = '/' := by
                have hb : (a == '/') = true := by
                  cases h3 : a == '/' <;> simp [h3] at ha ⊢
                exact eq_of_beq hb
              exact ⟨t2, by rw [ha2]⟩
    · next =>
      cases h
      exact ⟨hb1, hb2, hb3, hb4, _, rfl⟩
    · next =>
      cases h
      refine ⟨hb1, hb2, hb3, hb4, ?_⟩
      show ∃ t, dirOf b.path ++ url = '/' :: t
      rw [hb5]
      obtain ⟨t2, ht2⟩ := dirOf_slash bt
      rw [ht2]
      exact ⟨t2 ++ url, rfl⟩

theorem resolveURL_WF {base url : String} {u : URLRec}
    (h : resolveURL base url = some u) : WFURL u := by
  unfold resolveURL at h
  split at h
  · exact absurd h (by simp)
  · case h_2 b heq =>
    exact resolveChars_WF (parseAbsoluteChars_WF heq) h

theorem coerceOrigin_ok_elim {trustedOrigin url r : String}
    (h : coerceOrigin trustedOrigin url = .ok r) :
    ∃ u, resolveURL trustedOrigin url = some u ∧
      trustedOrigin = originStr u ∧ r = hrefStr u := by
  unfold coerceOrigin at h
  split at h
  · exact absurd h (by simp)
  · case h_2 u heq =>
    split at h
    · exact absurd h (by simp)
    · case isFalse hno =>
      cases h
      exact ⟨u, heq, not_ne_iff.mp hno, rfl⟩

/-! ## Orchestrator lemmas -/

theorem signTry_st (p : SignParams) (sender : Sender) (env : SignEnv) :
    (signTry p sender env).2 = ⟨[], none⟩ ∨
    (signTry p sender env).2 = ⟨[ChanEvent.opened 1], some 1⟩ ∨
    (signTry p sender env).2 = ⟨[ChanEvent.opened 1, ChanEvent.opened 2], some 2⟩ := by
  unfold signTry
  repeat' split
  all_goals simp

/-! ## Claims -/

/-- C6: coerceOrigin resolves the url against the trusted origin as a base and
returns the resolved URL when its origin equals the trusted origin, and fails
with OriginMismatch otherwise; in particular coercing /path against
https://a.example yields https://a.example/path and coercing
https://b.example/x against https://a.example fails with OriginMismatch. -/
theorem c6_coerceOrigin_contract :
    (∀ (trustedOrigin url : String) (u : URLRec),
        resolveURL trustedOrigin url = some u →
        (trustedOrigin = originStr u →
          coerceOrigin trustedOrigin url = .ok (hrefStr u)) ∧
        (trustedOrigin ≠ originStr u →
          ∃ msg, coerceOrigin trustedOrigin url = .error ⟨.originMismatch, msg, none⟩)) ∧
    coerceOrigin "https://a.example" "/path" = .ok "https://a.example/path" ∧
    (∃ msg, coerceOrigin "https://a.example" "https://b.example/x" =
      .error ⟨.originMismatch, msg, none⟩) := by
  refine ⟨?_, by decide,
    ⟨"expected origin https://a.example for URL https://b.example/x", by decide⟩⟩
  intro trustedOrigin url u hres
  constructor
  · intro heq
    unfold coerceOrigin
    simp only [hres]
    rw [if_neg (by simp [heq])]
  · intro hne
    unfold coerceOrigin
    simp only [hres]
    rw [if_pos hne]
    exact ⟨_, rfl⟩

/-- Witness for C6 at a concrete resolution. -/
theorem c6_coerceOrigin_contract_witness :
    resolveURL "https://page.example" "/x" =
      some ⟨"https".data, "page.example".data, "/x".data⟩ ∧
    coerceOrigin "https://page.example" "/x" =
      .ok (hrefStr ⟨"https".data, "page.example".data, "/x".data⟩) :=
  ⟨by decide,
   (c6_coerceOrigin_contract.1 "https://page.example" "/x"
     ⟨"https".data, "page.example".data, "/x".data⟩ (by decide)).1 (by decide)⟩

/-- C9: coerceOrigin is idempotent on every input on which it succeeds. -/
theorem c9_coerce_idempotent (origin url r : String)
    (h : coerceOrigin origin url = .ok r) : coerceOrigin origin r = .ok r := by
  obtain ⟨u, hres, ho, hr⟩ := coerceOrigin_ok_elim h
  have hwf : WFURL u := resolveURL_WF hres
  have hbase : ∃ b, parseAbsoluteChars origin.data = some b := by
    unfold resolveURL at hres
    split at hres
    · exact absurd hres (by simp)
    · next b heq => exact ⟨b, heq⟩
  obtain ⟨b, hb⟩ := hbase
  have hres2 : resolveURL origin r = some u := by
    unfold resolveURL
    rw [hb]
    have hrd : r.data = hrefChars u := by rw [hr]; rfl
    rw [hrd]
    unfold resolveChars
    rw [parse_hrefChars hwf]
  unfold coerceOrigin
  simp only [hres2]
  rw [if_neg (by simp [ho]), hr]

/-- Witness for C9 at a concrete input. -/
theorem c9_coerce_idempotent_witness :
    coerceOrigin "https://a.example" "/path" = .ok "https://a.example/path" ∧
    coerceOrigin "https://a.example" "https://a.example/path" =
      .ok "https://a.example/path" :=
  ⟨by decide, c9_coerce_idempotent "https://a.example" "/path" "https://a.example/path"
    (by decide)⟩

/-- C5: whenever the coerced URL does not start with https:// after
lowercasing, the broker fetch throws ProtocolInsecure, leaves the session
state unchanged and issues no network request, whatever the environment. -/
theorem c5_protocol_insecure (s : WebServerService) (url r : String) (env : FetchEnv)
    (hco : coerceOrigin (s.corsOrigin.getD s.senderOrigin) url = .ok r)
    (hns : ("https://".data).isPrefixOf ((lowerStr r).data) = false) :
    WebServerService.fetch s url env =
      ⟨.error ⟨.protocolInsecure, "HTTPS required for " ++ r, none⟩, s, false⟩ := by
  unfold WebServerService.fetch
  simp only [hco]
  rw [hns]
  rfl

/-- Witness for C5: a session anchored to a plain HTTP page, with any
environment. -/
theorem c5_protocol_insecure_witness :
    WebServerService.fetch wsHttpPage "/x" envFpAA =
      ⟨.error ⟨.protocolInsecure, "HTTPS required for http://a.example/x", none⟩,
       wsHttpPage, false⟩ :=
  c5_protocol_insecure wsHttpPage "/x" "http://a.example/x" envFpAA (by decide) (by decide)

/-- Reduction of the broker fetch once the URL checks pass and the relayed
transfer settles with a response: the outcome is decided by the hook error and
the response ok flag. -/
theorem fetch_relay_settled (s : WebServerService) (url r : String) (env : FetchEnv)
    (resp : HttpResponse)
    (hco : coerceOrigin (s.corsOrigin.getD s.senderOrigin) url = .ok r)
    (hhttps : ("https://".data).isPrefixOf ((lowerStr r).data) = true)
    (hrelay : env.relay = .ok resp) :
    (WebServerService.fetch s url env).result =
      (match (if !resp.ok then
            some (attachResponse ((hookError s env).getD serverRejectedErr) resp)
          else hookError s env) with
        | some e => .error e
        | none => .ok ⟨none, resp.ok, resp.redirected, resp.status, resp.statusText,
                       resp.type, resp.url, resp.body, resp.headers⟩) := by
  unfold WebServerService.fetch
  simp only [hco, hhttps, hrelay, Bool.not_true, Bool.false_eq_true, if_false]
  split <;> rfl

/-- C2 as stated is refuted: after a successful CORS negotiation that set the
CORS origin to https://cors.example, a fetch whose response lacks the
Access-Control-Allow-Origin header succeeds and returns the body when the
webRequest interception capability is unavailable, instead of failing with
OriginMismatch. -/
theorem c2_cors_check_counterexample :
    wsCors.corsOrigin = some "https://cors.example" ∧
    acaoOf envNoAcaoNoPerm.responseHeaders = none ∧
    (WebServerService.fetch wsCors "/x" envNoAcaoNoPerm).result =
      .ok ⟨none, true, false, 200, "OK", "cors", "https://cors.example/x",
           BodyVal.str "secret", []⟩ := by
  refine ⟨by decide, by decide, by decide⟩

/-- C2 amended: when the CORS origin is set, the webRequest interception
capability is available and the relayed transfer settles with a response
whose Access-Control-Allow-Origin header is absent or differs from the sender
origin, the fetch fails with OriginMismatch regardless of the HTTP status of
the response. -/
theorem c2_cors_header_mismatch (s : WebServerService) (url r : String)
    (env : FetchEnv) (resp : HttpResponse)
    (hcors : s.corsOrigin.isSome = true)
    (hco : coerceOrigin (s.corsOrigin.getD s.senderOrigin) url = .ok r)
    (hhttps : ("https://".data).isPrefixOf ((lowerStr r).data) = true)
    (hperm : hasPermission env = true)
    (hrelay : env.relay = .ok resp)
    (hacao : acaoOf env.responseHeaders ≠ some s.senderOrigin) :
    ∃ e, (WebServerService.fetch s url env).result = .error e ∧
      e.kind = ErrKind.originMismatch := by
  have hlist : onHeadersReceivedListener s env.responseHeaders =
      some ⟨.originMismatch,
        "website origin " ++ s.senderOrigin
          ++ " does not match Access-Control-Allow-Origin", none⟩ := by
    unfold onHeadersReceivedListener
    rw [if_pos]
    rw [hcors]
    simp
    intro hx
    exact hacao hx.symm
  have hhook : hookError s env = some ⟨.originMismatch,
      "website origin " ++ s.senderOrigin
        ++ " does not match Access-Control-Allow-Origin", none⟩ := by
    unfold hookError
    rw [hperm, if_pos rfl, hlist]
  rw [fetch_relay_settled s url r env resp hco hhttps hrelay]
  cases hok : resp.ok with
  | true =>
    simp only [hok, Bool.not_true, hhook]
    exact ⟨_, rfl, rfl⟩
  | false =>
    simp only [hok, Bool.not_false, hhook]
    exact ⟨_, rfl, rfl⟩

/-- Witness for the amended C2: the CORS session, permission available, a 200
response without the Access-Control-Allow-Origin header. -/
theorem c2_cors_header_mismatch_witness :
    ∃ e, (WebServerService.fetch wsCors "/x" envNoAcaoPerm).result = .error e ∧
      e.kind = ErrKind.originMismatch :=
  c2_cors_header_mismatch wsCors "/x" "https://cors.example/x" envNoAcaoPerm respNoAcao
    (by decide) (by decide) (by decide) (by decide) (by decide) (by decide)

/-- C7: when a broker fetch reaches the network and the relayed transfer
settles, a hook-recorded error wins and is thrown to the caller (even when the
transfer itself completed, and with the response snapshot attached when the
response is not ok); otherwise a response that is not ok raises ServerRejected
carrying the response snapshot.  In particular the concrete sign flow whose
finalize call is rejected with HTTP 400 returns a ServerRejected failure
carrying the 400 response snapshot. -/
theorem c7_completion_error_precedence (s : WebServerService) (url r : String)
    (env : FetchEnv) (resp : HttpResponse)
    (hco : coerceOrigin (s.corsOrigin.getD s.senderOrigin) url = .ok r)
    (hhttps : ("https://".data).isPrefixOf ((lowerStr r).data) = true)
    (hrelay : env.relay = .ok resp) :
    (∀ e, hookError s env = some e →
       ∃ e2, (WebServerService.fetch s url env).result = .error e2 ∧
         e2.kind = e.kind ∧ e2.message = e.message) ∧
    (hookError s env = none → resp.ok = false →
       (WebServerService.fetch s url env).result =
         .error ⟨.serverRejected, "server rejected the request", some resp⟩) ∧
    (sign sgParams sgSender sgEnv400).1 =
      SignResult.failure ⟨.serverRejected, "server rejected the request", some respFin400⟩ := by
  refine ⟨?_, ?_, by decide⟩
  · intro e he
    rw [fetch_relay_settled s url r env resp hco hhttps hrelay]
    cases hok : resp.ok with
    | true =>
      simp only [hok, Bool.not_true, he]
      exact ⟨e, rfl, rfl, rfl⟩
    | false =>
      simp only [hok, Bool.not_false, he, Option.getD_some]
      exact ⟨attachResponse e resp, rfl, rfl, rfl⟩
  · intro hn hok
    rw [fetch_relay_settled s url r env resp hco hhttps hrelay]
    simp only [hok, Bool.not_false, hn, Option.getD_none]
    rfl

/-- Witness for C7: the finalize call of the concrete flow, rejected with
HTTP 400 and no hook error. -/
theorem c7_completion_error_precedence_witness :
    (WebServerService.fetch wsSession "https://page.example/finalize"
        ⟨.ok false, none, ⟨"secure", ⟨"fp-AA"⟩⟩, .ok respFin400⟩).result =
      .error ⟨.serverRejected, "server rejected the request", some respFin400⟩ :=
  (c7_completion_error_precedence wsSession "https://page.example/finalize"
      "https://page.example/finalize"
      ⟨.ok false, none, ⟨"secure", ⟨"fp-AA"⟩⟩, .ok respFin400⟩ respFin400
      (by decide) (by decide) (by decide)).2.1 (by decide) (by decide)

/-- C10: the broker fetch never changes the session state (fingerprints,
sender tab, sender origin, CORS origin), whether it returns or throws, and
the CORS negotiation operation changes nothing but the CORS origin. -/
theorem c10_broker_state_frame (s : WebServerService) (url : String) (env : FetchEnv)
    (a : Action) (ccu : String) (cenv : FetchEnv) :
    (WebServerService.fetch s url env).state = s ∧
    (WebServerService.enableCors s a ccu cenv).2.fingerprints = s.fingerprints ∧
    (WebServerService.enableCors s a ccu cenv).2.senderTabId = s.senderTabId ∧
    (WebServerService.enableCors s a ccu cenv).2.senderOrigin = s.senderOrigin := by
  have hf : (WebServerService.fetch s url env).state = s := by
    unfold WebServerService.fetch
    repeat' split
    all_goals rfl
  have he : (WebServerService.enableCors s a ccu cenv).2.fingerprints = s.fingerprints ∧
      (WebServerService.enableCors s a ccu cenv).2.senderTabId = s.senderTabId ∧
      (WebServerService.enableCors s a ccu cenv).2.senderOrigin = s.senderOrigin := by
    unfold WebServerService.enableCors
    repeat' split
    all_goals simp
  exact ⟨hf, he⟩

/-- C1 is refuted by the code: with the webRequest capability available and
the TLS inspection delivering divergent leaf fingerprints (fp-AA, then fp-BB)
on two successive trust-checked calls of one session, both calls succeed and
return their bodies, no CertificateChanged error is raised at the divergent
call, and the session fingerprint sequence stays empty: the recording and
pairwise-equality check sit in a commented-out region of the listener. -/
theorem c1_certificate_check_inoperative :
    hasPermission envFpAA = true ∧ hasPermission envFpBB = true ∧
    envFpAA.securityInfo.fingerprint ≠ envFpBB.securityInfo.fingerprint ∧
    (WebServerService.fetch wsSession "/api" envFpAA).result =
      .ok ⟨none, true, false, 200, "OK", "basic", "https://page.example/api",
           BodyVal.str "payload-1", []⟩ ∧
    (WebServerService.fetch wsSession "/api" envFpAA).state = wsSession ∧
    (WebServerService.fetch ((WebServerService.fetch wsSession "/api" envFpAA).state)
        "/api" envFpBB).result =
      .ok ⟨none, true, false, 200, "OK", "basic", "https://page.example/api",
           BodyVal.str "payload-2", []⟩ ∧
    (WebServerService.fetch ((WebServerService.fetch wsSession "/api" envFpAA).state)
        "/api" envFpBB).state.fingerprints = [] := by
  decide

/-- C8 is refuted by the code: with the webRequest TLS inspection capability
available and a secure connection whose fingerprint is delivered, a successful
broker fetch still returns null certificate metadata, because the assignment
of the collected certificate sits in the commented-out region of the
listener. -/
theorem c8_certificate_metadata_always_null :
    hasPermission envFpAA = true ∧
    envFpAA.securityInfo.state = "secure" ∧
    (WebServerService.fetch wsSession "/api" envFpAA).result =
      .ok ⟨none, true, false, 200, "OK", "basic", "https://page.example/api",
           BodyVal.str "payload-1", []⟩ := by
  decide

/-- C3: on every exit path of the sign flow, the currently open native
application channel (the last one opened) is closed exactly once. -/
theorem c3_channel_closed_once (p : SignParams) (sender : Sender) (env : SignEnv)
    (c : Nat)
    (h : (openedIds (sign p sender env).2).getLast? = some c) :
    ((sign p sender env).2).count (ChanEvent.closed c) = 1 := by
  rcases signTry_st p sender env with hst | hst | hst
  · have htr : (sign p sender env).2 = [] := by
      unfold sign
      rw [hst]
    rw [htr] at h
    simp [openedIds] at h
  · have htr : (sign p sender env).2 = [ChanEvent.opened 1, ChanEvent.closed 1] := by
      unfold sign
      rw [hst]
      rfl
    rw [htr] at h
    have hc : (1 : Nat) = c := by
      have hx : (openedIds [ChanEvent.opened 1, ChanEvent.closed 1]).getLast? = some 1 := rfl
      rw [hx] at h
      exact Option.some.inj h
    subst hc
    rw [htr]
    decide
  · have htr : (sign p sender env).2 =
        [ChanEvent.opened 1, ChanEvent.opened 2, ChanEvent.closed 2] := by
      unfold sign
      rw [hst]
      rfl
    rw [htr] at h
    have hc : (2 : Nat) = c := by
      have hx : (openedIds
          [ChanEvent.opened 1, ChanEvent.opened 2, ChanEvent.closed 2]).getLast? =
          some 2 := rfl
      rw [hx] at h
      exact Option.some.inj h
    subst hc
    rw [htr]
    decide

/-- Witness for C3: the fully successful concrete flow, whose current channel
is the second one. -/
theorem c3_channel_closed_once_witness :
    (openedIds (sign sgParams sgSender sgEnvOk).2).getLast? = some 2 ∧
    ((sign sgParams sgSender sgEnvOk).2).count (ChanEvent.closed 2) = 1 :=
  ⟨by decide, c3_channel_closed_once sgParams sgSender sgEnvOk 2 (by decide)⟩

/-- C4: every error raised by any step of the sign flow surfaces as a tagged
failure result carrying the serialised error, and every run of the flow
returns either a tagged success or such a tagged failure: no error escapes
the orchestrator. -/
theorem c4_errors_serialized (p : SignParams) (sender : Sender) (env : SignEnv) :
    (∀ e, (signTry p sender env).1 = .error e →
       (sign p sender env).1 = SignResult.failure (serializeError e)) ∧
    ((∃ payload, (signTry p sender env).1 = .ok payload ∧
        (sign p sender env).1 = SignResult.success payload) ∨
     (∃ e, (signTry p sender env).1 = .error e ∧
        (sign p sender env).1 = SignResult.failure (serializeError e))) := by
  constructor
  · intro e he
    unfold sign
    rw [he]
  · cases hres : (signTry p sender env).1 with
    | ok payload =>
      refine Or.inl ⟨payload, rfl, ?_⟩
      unfold sign
      rw [hres]
    | error e =>
      refine Or.inr ⟨e, rfl, ?_⟩
      unfold sign
      rw [hres]

/-- Witness for C4: a concrete flow whose native connect step throws. -/
theorem c4_errors_serialized_witness :
    (sign sgParams sgSender sgEnvConnFail).1 =
      SignResult.failure (serializeError connFailErr) :=
  (c4_errors_serialized sgParams sgSender sgEnvConnFail).1 connFailErr (by decide)

end WebEid
